import Mathlib

/-!
Verification of the backup/import engine of `spotify_to_tidal`
(`src/spotify_to_tidal/backup.py`), embedded shallowly in Lean 4.

Destination-side network effects (playlist creation, clear, append,
favorite adds) are modelled as explicit operation traces; external
collaborators (the track match cache after population and search, the
destination search endpoints, the existing destination collections) are
oracles passed in as parameters.  Functions of `sync.py`, `cache.py` and
`tidalapi_patch.py` that are imported by `backup.py` but whose source is
not part of this repository snapshot are modelled from the specification
and marked as such in their doc comments.
-/

namespace SpotifyToTidal

/-- `BACKUP_VERSION = 2` from backup.py: the current backup format version. -/
def BACKUP_VERSION : Int := 2

/-- A simplified Spotify track as it appears in a backup file:
`_simplify_track` keeps id, name, duration, track number, external ids,
artist names and album info.  Only the fields the import path inspects
are carried; the id is optional because `track.get('id')` may be absent. -/
structure SpotifyTrack where
  id : Option String
  name : String
  deriving DecidableEq

/-- A simplified Spotify album from a backup file (`_simplify_album`):
id, name, and the ordered artist names. -/
structure SpotifyAlbum where
  id : Option String
  name : String
  artists : List String
  deriving DecidableEq

/-- A simplified Spotify artist from a backup file (`_simplify_artist`). -/
structure SpotifyArtist where
  id : Option String
  name : String
  deriving DecidableEq

/-- A playlist entry of a backup file (`_simplify_playlist`): id, name,
description and the ordered simplified tracks. -/
structure PlaylistData where
  id : Option String
  name : String
  description : String
  tracks : List SpotifyTrack
  deriving DecidableEq

/-- The parsed JSON top-level object of a backup file, before validation.
Every field is optional: `json.load` produces whatever keys the file has,
and `load_backup` inspects presence with `data.get` / `in`. -/
structure RawBackup where
  version : Option Int
  exported_at : Option String
  spotify_user : Option String
  playlists : Option (List PlaylistData)
  favorites : Option (List SpotifyTrack)
  albums : Option (List SpotifyAlbum)
  artists : Option (List SpotifyArtist)
  deriving DecidableEq

/-- The validation failures of `load_backup`, each raised as a
`ValueError` in the Python source. -/
inductive LoadError where
  | MissingVersion
  | UnsupportedVersion
  | MissingPlaylists
  deriving DecidableEq

/-- `load_backup` from backup.py (lines 190-217): validates the parsed
backup object.  Missing `version` raises missing-version; a version
greater than `BACKUP_VERSION` raises unsupported-version; a missing
`playlists` field raises missing-playlists; otherwise the data is
returned unchanged. -/
def load_backup (data : RawBackup) : Except LoadError RawBackup :=
  match data.version with
  | none => Except.error LoadError.MissingVersion
  | some v =>
    if v > BACKUP_VERSION then Except.error LoadError.UnsupportedVersion
    else if data.playlists.isNone then Except.error LoadError.MissingPlaylists
    else Except.ok data

/-- A complete snapshot with every top-level field present, as built by
`export_spotify_data` (backup.py lines 161-170): version, export
timestamp, user, playlists, favorites, albums, artists. -/
structure Snapshot where
  version : Int
  exported_at : String
  spotify_user : String
  playlists : List PlaylistData
  favorites : List SpotifyTrack
  albums : List SpotifyAlbum
  artists : List SpotifyArtist
  deriving DecidableEq

/-- Serialization of a complete snapshot to the JSON top-level object,
as written by `export_spotify_data` via `json.dump`: every field is
present in the file.  `json.load` recovers the same values, so the file
layer is the identity on this representation. -/
def snapshotToRaw (s : Snapshot) : RawBackup :=
  { version := some s.version
  , exported_at := some s.exported_at
  , spotify_user := some s.spotify_user
  , playlists := some s.playlists
  , favorites := some s.favorites
  , albums := some s.albums
  , artists := some s.artists }

/-- Helper: a backup with a present version at most the supported maximum
and a present playlists field validates successfully. -/
lemma load_backup_ok_of_valid (data : RawBackup) (v : Int)
    (hv : data.version = some v) (hle : v ≤ BACKUP_VERSION)
    (hp : data.playlists ≠ none) :
    load_backup data = Except.ok data := by
  have hfalse : data.playlists.isNone = false := by
    cases hpl : data.playlists with
    | none => exact absurd hpl hp
    | some l => rfl
  simp [load_backup, hv, Int.not_lt.mpr hle, hfalse]

/-- C4: load_backup fails with MissingVersion when the version field is
absent; with UnsupportedVersion when version is present and greater than
the maximum supported version 2; with MissingPlaylists when version is
present and supported but the playlists field is absent; otherwise it
returns the data. -/
theorem c4_load_backup_validation (data : RawBackup) :
    (data.version = none → load_backup data = Except.error LoadError.MissingVersion) ∧
    (∀ v : Int, data.version = some v → v > BACKUP_VERSION →
      load_backup data = Except.error LoadError.UnsupportedVersion) ∧
    (∀ v : Int, data.version = some v → v ≤ BACKUP_VERSION → data.playlists = none →
      load_backup data = Except.error LoadError.MissingPlaylists) ∧
    (∀ v : Int, data.version = some v → v ≤ BACKUP_VERSION → data.playlists ≠ none →
      load_backup data = Except.ok data) := by
  refine ⟨?_, ?_, ?_, ?_⟩
  · intro h; simp [load_backup, h]
  · intro v hv hgt; simp [load_backup, hv, hgt]
  · intro v hv hle hp
    simp [load_backup, hv, Int.not_lt.mpr hle, hp, Option.isNone]
  · intro v hv hle hp
    exact load_backup_ok_of_valid data v hv hle hp

/-- Witness for C4 at concrete inputs: a version-2 backup with playlists
present loads successfully. -/
theorem c4_load_backup_validation_witness :
    load_backup ⟨some 2, none, none, some [], none, none, none⟩ =
      Except.ok ⟨some 2, none, none, some [], none, none, none⟩ :=
  (c4_load_backup_validation _).2.2.2 2 rfl (by decide) (by decide)

/-- C10: load_backup imposes no lower bound on the version: any present
version value at most 2, including 0 and negative integers, passes the
version check, and with playlists present the data is returned. -/
theorem c10_no_version_lower_bound (data : RawBackup) (v : Int)
    (hv : data.version = some v) (hle : v ≤ BACKUP_VERSION)
    (hp : data.playlists ≠ none) :
    load_backup data = Except.ok data :=
  load_backup_ok_of_valid data v hv hle hp

/-- Witness for C10 at a concrete input: version -5 is accepted. -/
theorem c10_no_version_lower_bound_witness :
    load_backup ⟨some (-5), none, none, some [], none, none, none⟩ =
      Except.ok ⟨some (-5), none, none, some [], none, none, none⟩ :=
  c10_no_version_lower_bound _ (-5) rfl (by decide) (by decide)

/-- C5: round-trip.  For every complete snapshot with version at most 2,
reading back the written file succeeds and recovers every field value of
the snapshot (semantic equality, independent of formatting). -/
theorem c5_snapshot_round_trip (s : Snapshot) (hle : s.version ≤ BACKUP_VERSION) :
    load_backup (snapshotToRaw s) = Except.ok (snapshotToRaw s) ∧
    (snapshotToRaw s).version = some s.version ∧
    (snapshotToRaw s).exported_at = some s.exported_at ∧
    (snapshotToRaw s).spotify_user = some s.spotify_user ∧
    (snapshotToRaw s).playlists = some s.playlists ∧
    (snapshotToRaw s).favorites = some s.favorites ∧
    (snapshotToRaw s).albums = some s.albums ∧
    (snapshotToRaw s).artists = some s.artists := by
  refine ⟨?_, rfl, rfl, rfl, rfl, rfl, rfl, rfl⟩
  simp [load_backup, snapshotToRaw, Int.not_lt.mpr hle]

/-- Witness for C5 at a concrete snapshot. -/
theorem c5_snapshot_round_trip_witness :
    load_backup (snapshotToRaw ⟨1, "t", "u", [], [], [], []⟩) =
      Except.ok (snapshotToRaw ⟨1, "t", "u", [], [], [], []⟩) :=
  (c5_snapshot_round_trip ⟨1, "t", "u", [], [], [], []⟩ (by decide)).1

/-- Modelled from the spec: `get_tracks_for_new_tidal_playlist` lives in
sync.py, which is not part of this repository snapshot.  Per §4.5 it
produces the fully resolved new ordered track-id list: source order, each
id mapped via the match cache, unresolved source tracks skipped.  The
`cache` oracle stands for the track match cache after
`populate_track_match_cache` and `search_new_tracks_on_tidal` have run. -/
def get_tracks_for_new_tidal_playlist (cache : String → Option Nat)
    (tracks : List SpotifyTrack) : List Nat :=
  tracks.filterMap (fun t => t.id.bind cache)

/-- A destination playlist mutation, as issued by
`sync_playlist_from_backup`: playlist creation
(`tidal_session.user.create_playlist`), clearing (`clear_tidal_playlist`)
or appending an ordered id list (`add_multiple_tracks_to_playlist`). -/
inductive PlaylistOp where
  | create (name description : String)
  | clear
  | append (ids : List Nat)
  deriving DecidableEq

/-- `sync_playlist_from_backup` from backup.py (lines 220-264) as a trace
of destination mutations.  `existing` is `none` when no Tidal playlist of
that name exists, otherwise `some old` with the ordered ids of its current
tracks.  The source returns early on an empty source track list; otherwise
it creates the playlist when absent (treating `old` as empty), resolves
the new id list, and reconciles: equal lists mean no mutation, an old list
that is a prefix of the new one means appending the missing suffix, and
anything else means clearing and rewriting in full. -/
def sync_playlist_from_backup (cache : String → Option Nat)
    (playlist_data : PlaylistData) (existing : Option (List Nat)) :
    List PlaylistOp :=
  if playlist_data.tracks.length = 0 then []
  else
    let old := existing.getD []
    let creates := match existing with
      | some _ => []
      | none => [PlaylistOp.create playlist_data.name playlist_data.description]
    let newIds := get_tracks_for_new_tidal_playlist cache playlist_data.tracks
    creates ++
      (if newIds = old then []
       else if newIds.take old.length = old then
         [PlaylistOp.append (newIds.drop old.length)]
       else [PlaylistOp.clear, PlaylistOp.append newIds])

/-- C1: ordered playlist reconciliation against an existing destination
playlist with non-empty old id list and non-empty resolved new id list:
if old equals new, no clear and no append is issued; if old is a proper
prefix of new (stated as `newL.take old.length = old` with `old ≠ newL`),
exactly one append of the suffix `newL.drop old.length` and no clear; and
otherwise exactly one clear followed by one append of the full new list. -/
theorem c1_ordered_reconciliation (cache : String → Option Nat)
    (pd : PlaylistData) (old newL : List Nat)
    (hres : get_tracks_for_new_tidal_playlist cache pd.tracks = newL)
    (hold : old ≠ []) (hnew : newL ≠ []) :
    (old = newL → sync_playlist_from_backup cache pd (some old) = []) ∧
    (old ≠ newL → newL.take old.length = old →
      sync_playlist_from_backup cache pd (some old) =
        [PlaylistOp.append (newL.drop old.length)]) ∧
    (newL.take old.length ≠ old →
      sync_playlist_from_backup cache pd (some old) =
        [PlaylistOp.clear, PlaylistOp.append newL]) := by
  have htr : ¬ pd.tracks.length = 0 := by
    intro h
    have h0 : pd.tracks = [] := List.length_eq_zero.mp h
    apply hnew
    rw [← hres, h0]
    rfl
  refine ⟨?_, ?_, ?_⟩
  · intro heq
    simp [sync_playlist_from_backup, htr, hres, heq]
  · intro hne htake
    simp [sync_playlist_from_backup, htr, hres, Ne.symm hne, htake]
  · intro htake
    have hne : newL ≠ old := by
      intro h
      apply htake
      subst h
      simp
    simp [sync_playlist_from_backup, htr, hres, hne, htake]

/-- Witness for C1: old `[1,2]` a proper prefix of resolved `[1,2,3]`
yields exactly one append of `[3]`. -/
theorem c1_ordered_reconciliation_witness :
    sync_playlist_from_backup
      (fun s => if s = "a" then some 1 else if s = "b" then some 2
                else if s = "c" then some 3 else none)
      ⟨none, "P", "", [⟨some "a", "A"⟩, ⟨some "b", "B"⟩, ⟨some "c", "C"⟩]⟩
      (some [1, 2]) = [PlaylistOp.append [3]] :=
  (c1_ordered_reconciliation _ _ [1, 2] [1, 2, 3] (by decide) (by decide)
    (by decide)).2.1 (by decide) (by decide)

/-- Counterexample for C3 as stated: a non-empty source playlist whose
tracks all fail to resolve (resolved new list is empty) still creates a
destination playlist when none exists; the claim says an empty resolved
list produces no creation and no mutation. -/
theorem c3_counterexample :
    get_tracks_for_new_tidal_playlist (fun _ => none)
      [(⟨some "x", "S"⟩ : SpotifyTrack)] = [] ∧
    sync_playlist_from_backup (fun _ => none)
      ⟨none, "P", "D", [⟨some "x", "S"⟩]⟩ none = [PlaylistOp.create "P" "D"] ∧
    [PlaylistOp.create "P" "D"] ≠ ([] : List PlaylistOp) := by
  refine ⟨by decide, by decide, by decide⟩

/-- C3 amended: the skip applies to an empty SOURCE track list, not an
empty resolved list: whenever the source playlist has no tracks, no
destination playlist is created and no mutation is issued, so an empty
source playlist never produces a destination playlist. -/
theorem c3_empty_source_playlist_no_mutation (cache : String → Option Nat)
    (pd : PlaylistData) (existing : Option (List Nat))
    (h : pd.tracks = []) :
    sync_playlist_from_backup cache pd existing = [] := by
  simp [sync_playlist_from_backup, h]

/-- Witness for the amended C3 at a concrete empty source playlist. -/
theorem c3_empty_source_playlist_no_mutation_witness :
    sync_playlist_from_backup (fun _ => some 7) ⟨none, "E", "", []⟩ none = [] :=
  c3_empty_source_playlist_no_mutation _ _ _ rfl

/-- The body of `sync_favorites_from_backup` from backup.py (lines
296-309): walking the source favorites in order, a track with a falsy id
(absent or empty) is skipped; the match cache is consulted; a truthy
match id (`match_id and ...`, so nonzero) that is not in the existing
destination favorite set is appended to `new_ids`, and one
`add_favorite_track` call is issued per entry of `new_ids`.  The existing
set is NOT updated inside the loop.  The returned list is the ordered
list of add calls. -/
def sync_favorites_from_backup (cache : String → Option Nat)
    (existing : List Nat) : List SpotifyTrack → List Nat
  | [] => []
  | t :: rest =>
    let tail := sync_favorites_from_backup cache existing rest
    match t.id with
    | none => tail
    | some sid =>
      if sid = "" then tail
      else
        match cache sid with
        | none => tail
        | some m => if m ≠ 0 ∧ m ∉ existing then m :: tail else tail

/-- The resolved destination-id list of the source favorites: one entry
per source occurrence whose id is present (truthy) and which the match
cache resolves to a truthy destination id.  This is the "resolved new
track-id list" the claims quantify over. -/
def resolvedFavoriteIds (cache : String → Option Nat) :
    List SpotifyTrack → List Nat
  | [] => []
  | t :: rest =>
    let tail := resolvedFavoriteIds cache rest
    match t.id with
    | none => tail
    | some sid =>
      if sid = "" then tail
      else
        match cache sid with
        | none => tail
        | some m => if m ≠ 0 then m :: tail else tail

/-- Helper: the favorites add trace is exactly the resolved id list
filtered to ids not already in the existing destination set, occurrence
by occurrence. -/
lemma sync_favorites_eq_filter (cache : String → Option Nat)
    (existing : List Nat) :
    ∀ tracks, sync_favorites_from_backup cache existing tracks =
      (resolvedFavoriteIds cache tracks).filter
        (fun m => decide (m ∉ existing))
  | [] => rfl
  | t :: rest => by
    have ih := sync_favorites_eq_filter cache existing rest
    cases hid : t.id with
    | none =>
      simp [sync_favorites_from_backup, resolvedFavoriteIds, hid, ih]
    | some sid =>
      by_cases hsid : sid = ""
      · simp [sync_favorites_from_backup, resolvedFavoriteIds, hid, hsid, ih]
      · cases hc : cache sid with
        | none =>
          simp [sync_favorites_from_backup, resolvedFavoriteIds, hid, hsid,
            hc, ih]
        | some m =>
          by_cases hm : m = 0
          · simp [sync_favorites_from_backup, resolvedFavoriteIds, hid, hsid,
              hc, hm, ih]
          · by_cases hmem : m ∈ existing
            · simp [sync_favorites_from_backup, resolvedFavoriteIds, hid,
                hsid, hc, hm, hmem, ih]
            · simp [sync_favorites_from_backup, resolvedFavoriteIds, hid,
                hsid, hc, hm, hmem, ih]

/-- Counterexample for C2 as stated: with existing destination favorites
{1, 2} and source tracks resolving to [2, 3, 3], the code issues TWO add
calls for id 3, because the existing set is not updated inside the loop;
the claim says duplicate resolved ids collapse to a single add call. -/
theorem c2_counterexample :
    sync_favorites_from_backup
      (fun s => if s = "a" then some 2 else if s = "b" then some 3
                else if s = "c" then some 3 else none)
      [1, 2]
      [⟨some "a", "A"⟩, ⟨some "b", "B"⟩, ⟨some "c", "C"⟩] = [3, 3] ∧
    resolvedFavoriteIds
      (fun s => if s = "a" then some 2 else if s = "b" then some 3
                else if s = "c" then some 3 else none)
      [⟨some "a", "A"⟩, ⟨some "b", "B"⟩, ⟨some "c", "C"⟩] = [2, 3, 3] ∧
    List.count 3
      (sync_favorites_from_backup
        (fun s => if s = "a" then some 2 else if s = "b" then some 3
                  else if s = "c" then some 3 else none)
        [1, 2]
        [⟨some "a", "A"⟩, ⟨some "b", "B"⟩, ⟨some "c", "C"⟩]) ≠ 1 := by
  refine ⟨by decide, by decide, by decide⟩

/-- C2 amended: one add_favorite_track call is issued per source
OCCURRENCE that resolves to a destination id not already in the existing
destination favorite set (duplicates are not collapsed); ids already
present in the destination set are never passed to an add call. -/
theorem c2_favorites_adds_per_occurrence (cache : String → Option Nat)
    (existing : List Nat) (tracks : List SpotifyTrack) :
    sync_favorites_from_backup cache existing tracks =
      (resolvedFavoriteIds cache tracks).filter
        (fun m => decide (m ∉ existing)) ∧
    ∀ m ∈ sync_favorites_from_backup cache existing tracks, m ∉ existing := by
  refine ⟨sync_favorites_eq_filter cache existing tracks, ?_⟩
  intro m hm
  rw [sync_favorites_eq_filter cache existing tracks] at hm
  have := List.of_mem_filter hm
  simpa using this

/-- Witness for the amended C2: at the counterexample input, every
issued add (id 3, twice) is indeed absent from the existing set. -/
theorem c2_favorites_adds_per_occurrence_witness :
    (3 : Nat) ∉ [1, 2] :=
  (c2_favorites_adds_per_occurrence
    (fun s => if s = "a" then some 2 else if s = "b" then some 3
              else if s = "c" then some 3 else none)
    [1, 2]
    [⟨some "a", "A"⟩, ⟨some "b", "B"⟩, ⟨some "c", "C"⟩]).2 3 (by decide)

/-- Whether the first list is an initial segment of the second. -/
def leadsWith : List Char → List Char → Bool
  | [], _ => true
  | _ :: _, [] => false
  | a :: as, b :: bs => a = b && leadsWith as bs

/-- The part of a character list before the first occurrence of `sep`. -/
def cutChars (sep : List Char) : List Char → List Char
  | [] => []
  | c :: cs => if leadsWith sep (c :: cs) then [] else c :: cutChars sep cs

/-- The part of `s` before the first occurrence of `sep`. -/
def cutAt (sep s : String) : String := ⟨cutChars sep.data s.data⟩

/-- Modelled from the spec: `simple` (the §4.1 `simplify`) lives in
sync.py, which is not part of this repository snapshot.  It strips a
trailing " - "-delimited suffix and trailing parenthetical/bracketed
qualifiers, so "Song - Live (2020 Remaster) [Bonus]" becomes "Song". -/
def simple (s : String) : String :=
  cutAt (" [") (cutAt (" (") (cutAt (" - ") s))

/-- ASCII lowercasing, modelling Python str.lower as used at backup.py
line 416. -/
def lowerString (s : String) : String := ⟨s.data.map Char.toLower⟩

/-- Character-level diacritic removal used by `normalize`. -/
def deaccentChar (c : Char) : Char :=
  if c = 'á' ∨ c = 'à' ∨ c = 'â' ∨ c = 'ã' ∨ c = 'ä' ∨ c = 'å' then 'a'
  else if c = 'é' ∨ c = 'è' ∨ c = 'ê' ∨ c = 'ë' then 'e'
  else if c = 'í' ∨ c = 'ì' ∨ c = 'î' ∨ c = 'ï' then 'i'
  else if c = 'ó' ∨ c = 'ò' ∨ c = 'ô' ∨ c = 'õ' ∨ c = 'ö' then 'o'
  else if c = 'ú' ∨ c = 'ù' ∨ c = 'û' ∨ c = 'ü' then 'u'
  else if c = 'ç' then 'c'
  else if c = 'ñ' then 'n'
  else c

/-- Modelled from the spec: `normalize` lives in sync.py, which is not
part of this repository snapshot.  Per §4.1 it removes diacritics,
mapping each accented character to its closest unaccented ASCII
equivalent ("Café" to "Cafe", "Björk" to "Bjork"). -/
def normalize (s : String) : String := ⟨s.data.map deaccentChar⟩

/-- The name equivalence used by the import path, as written at
backup.py line 416:
`normalize(simple(x.lower())) == normalize(simple(y.lower()))`. -/
def namesEquiv (x y : String) : Bool :=
  normalize (simple (lowerString x)) == normalize (simple (lowerString y))

/-- A destination album candidate: opaque handle exposing id, name and
artist names. -/
structure TidalAlbum where
  id : Nat
  name : String
  artists : List String
  deriving DecidableEq

/-- A destination artist candidate: opaque handle exposing id and name. -/
structure TidalArtist where
  id : Nat
  name : String
  deriving DecidableEq

/-- Modelled from the spec: `check_album_similarity` lives in sync.py,
which is not part of this repository snapshot.  Per §4.4, an album
candidate matches when the album name is equivalent under
normalize-after-simplify and the primary artist name is equivalent under
the same normalization. -/
def check_album_similarity (sa : SpotifyAlbum) (ta : TidalAlbum) : Bool :=
  namesEquiv ta.name sa.name &&
    namesEquiv (ta.artists.headD "") (sa.artists.headD "")

/-- The outcome of scanning one ranked candidate list for one source
entity: the add calls issued, the destination favorite id set afterwards,
and whether a candidate was accepted (`matched` in the Python source). -/
structure CandidateScan where
  adds : List Nat
  favs : List Nat
  matched : Bool
  deriving DecidableEq

/-- The candidate loop of `sync_artists_from_backup` (backup.py lines
414-425): walk the ranked candidates in service order; the first one
whose name is equivalent to the source artist's name is accepted and the
scan stops there; an accepted candidate whose id is not yet a favorite
is added to the favorites (one add call) and to the local set. -/
def scanArtistCandidates (favs : List Nat) (name : String) :
    List TidalArtist → CandidateScan
  | [] => ⟨[], favs, false⟩
  | c :: rest =>
    if namesEquiv c.name name then
      if c.id ∈ favs then ⟨[], favs, true⟩
      else ⟨[c.id], c.id :: favs, true⟩
    else scanArtistCandidates favs name rest

/-- The candidate loop of `sync_albums_from_backup` (backup.py lines
352-362), identical in shape to the artist scan but using the album
similarity check. -/
def scanAlbumCandidates (favs : List Nat) (sa : SpotifyAlbum) :
    List TidalAlbum → CandidateScan
  | [] => ⟨[], favs, false⟩
  | c :: rest =>
    if check_album_similarity sa c then
      if c.id ∈ favs then ⟨[], favs, true⟩
      else ⟨[c.id], c.id :: favs, true⟩
    else scanAlbumCandidates favs sa rest

/-- The cumulative outcome of an unordered (albums or artists) sync pass:
the ordered add calls, the destination favorite set at the end, and the
not-found report entries. -/
structure UnorderedSyncState where
  adds : List Nat
  favs : List Nat
  notFound : List String
  deriving DecidableEq

/-- The search query of `sync_albums_from_backup` (backup.py line 347):
simplified album name followed by the simplified primary artist name. -/
def albumQuery (sa : SpotifyAlbum) : String :=
  simple sa.name ++ " " ++ simple (sa.artists.headD "")

/-- The not-found report entry for an album (backup.py lines 365, 368):
`"<artist> - <name>"`, with an empty artist when the album has none. -/
def albumLabel (sa : SpotifyAlbum) : String :=
  sa.artists.headD "" ++ " - " ++ sa.name

/-- `sync_albums_from_backup` from backup.py (lines 312-372) as a fold
over the source albums: each album is searched with `albumQuery`, its
ranked candidates are scanned, adds accumulate in order, the favorite
set threads through (it IS updated after each album add), and an album
with no accepted candidate contributes its label to the not-found list. -/
def sync_albums_from_backup (search : String → List TidalAlbum)
    (favs : List Nat) : List SpotifyAlbum → UnorderedSyncState
  | [] => ⟨[], favs, []⟩
  | a :: rest =>
    let scan := scanAlbumCandidates favs a (search (albumQuery a))
    let step := sync_albums_from_backup search scan.favs rest
    ⟨scan.adds ++ step.adds, step.favs,
      (if scan.matched then [] else [albumLabel a]) ++ step.notFound⟩

/-- `sync_artists_from_backup` from backup.py (lines 375-435) as a fold
over the source artists: each artist is searched with its simplified
name, its ranked candidates are scanned for the first name-equivalent
one, adds accumulate, the favorite set threads through, and an artist
with no accepted candidate contributes its name to the not-found list. -/
def sync_artists_from_backup (search : String → List TidalArtist)
    (favs : List Nat) : List SpotifyArtist → UnorderedSyncState
  | [] => ⟨[], favs, []⟩
  | a :: rest =>
    let scan := scanArtistCandidates favs a.name (search (simple a.name))
    let step := sync_artists_from_backup search scan.favs rest
    ⟨scan.adds ++ step.adds, step.favs,
      (if scan.matched then [] else [a.name]) ++ step.notFound⟩

/-- Helper: the artist candidate scan accepts exactly the first
candidate (in list order) whose name is equivalent, and reports no match
exactly when no candidate's name is equivalent. -/
lemma scanArtist_spec (favs : List Nat) (name : String) :
    ∀ cands : List TidalArtist,
      (∀ c, cands.find? (fun x => namesEquiv x.name name) = some c →
        scanArtistCandidates favs name cands =
          if c.id ∈ favs then ⟨[], favs, true⟩
          else ⟨[c.id], c.id :: favs, true⟩) ∧
      (cands.find? (fun x => namesEquiv x.name name) = none →
        scanArtistCandidates favs name cands = ⟨[], favs, false⟩)
  | [] => ⟨fun c h => by simp [List.find?] at h, fun _ => rfl⟩
  | d :: rest => by
    have ih := scanArtist_spec favs name rest
    by_cases hd : namesEquiv d.name name = true
    · have hpos : (d :: rest).find? (fun x => namesEquiv x.name name) = some d :=
        List.find?_cons_of_pos rest hd
      constructor
      · intro c h
        rw [hpos] at h
        injection h with h
        subst h
        by_cases hmem : d.id ∈ favs
        · simp [scanArtistCandidates, hd, hmem]
        · simp [scanArtistCandidates, hd, hmem]
      · intro h
        rw [hpos] at h
        exact absurd h (by simp)
    · have hneg : (d :: rest).find? (fun x => namesEquiv x.name name) =
          rest.find? (fun x => namesEquiv x.name name) :=
        List.find?_cons_of_neg rest (by simpa using hd)
      constructor
      · intro c h
        rw [hneg] at h
        have hrec := ih.1 c h
        rw [scanArtistCandidates, if_neg hd]
        exact hrec
      · intro h
        rw [hneg] at h
        rw [scanArtistCandidates, if_neg hd]
        exact ih.2 h

/-- C9: for every source artist and ranked candidate list, the import
accepts the first candidate in service order whose name is equivalent
under normalize-after-simplify (case-insensitive) and stops scanning
there (the outcome is determined by that first equivalent candidate:
one add call when its id is not yet a favorite, none otherwise, and no
not-found entry); when no candidate qualifies, the artist's name is
recorded in the not-found list, no add is issued for it, and the run
continues with the remaining artists. -/
theorem c9_artist_first_equivalent_candidate
    (search : String → List TidalArtist) (favs : List Nat)
    (a : SpotifyArtist) (rest : List SpotifyArtist) :
    (∀ c, (search (simple a.name)).find? (fun x => namesEquiv x.name a.name) =
        some c →
      scanArtistCandidates favs a.name (search (simple a.name)) =
        (if c.id ∈ favs then ⟨[], favs, true⟩
         else ⟨[c.id], c.id :: favs, true⟩) ∧
      (sync_artists_from_backup search favs (a :: rest)).notFound =
        (sync_artists_from_backup search
          (scanArtistCandidates favs a.name (search (simple a.name))).favs
          rest).notFound) ∧
    ((search (simple a.name)).find? (fun x => namesEquiv x.name a.name) =
        none →
      (sync_artists_from_backup search favs (a :: rest)).notFound =
        a.name :: (sync_artists_from_backup search favs rest).notFound ∧
      (sync_artists_from_backup search favs (a :: rest)).adds =
        (sync_artists_from_backup search favs rest).adds) := by
  constructor
  · intro c h
    have hs := (scanArtist_spec favs a.name (search (simple a.name))).1 c h
    refine ⟨hs, ?_⟩
    have hm : (scanArtistCandidates favs a.name (search (simple a.name))).matched
        = true := by
      rw [hs]
      by_cases hmem : c.id ∈ favs <;> simp [hmem]
    simp [sync_artists_from_backup, hm]
  · intro h
    have hs := (scanArtist_spec favs a.name (search (simple a.name))).2 h
    constructor
    · simp [sync_artists_from_backup, hs]
    · simp [sync_artists_from_backup, hs]

/-- Witness for C9: a two-candidate list whose second entry also matches;
the first equivalent candidate ("Bjork" vs source "Björk", id 7) is the
one accepted. -/
theorem c9_artist_first_equivalent_candidate_witness :
    scanArtistCandidates [] "Björk" [⟨7, "Bjork"⟩, ⟨8, "Björk"⟩] =
      ⟨[7], [7], true⟩ :=
  by
    have h := (c9_artist_first_equivalent_candidate
      (fun _ => [⟨7, "Bjork"⟩, ⟨8, "Björk"⟩]) [] ⟨none, "Björk"⟩ []).1
      ⟨7, "Bjork"⟩ (by decide)
    simpa using h.1


/-- Helper: one album candidate scan leaves existing favorites in place,
grows the favorite set only by its issued adds, and every issued add is
the id of a candidate accepted by the similarity check. -/
lemma scanAlbum_frame (favs : List Nat) (sa : SpotifyAlbum) :
    ∀ cands : List TidalAlbum,
      (∀ m ∈ favs, m ∈ (scanAlbumCandidates favs sa cands).favs) ∧
      (∀ m ∈ (scanAlbumCandidates favs sa cands).favs,
        m ∈ favs ∨ m ∈ (scanAlbumCandidates favs sa cands).adds) ∧
      (∀ m ∈ (scanAlbumCandidates favs sa cands).adds,
        ∃ c ∈ cands, check_album_similarity sa c = true ∧ m = c.id)
  | [] =>
    ⟨fun _ hm => hm, fun _ hm => Or.inl hm,
     fun m hm => absurd hm (List.not_mem_nil m)⟩
  | c :: rest => by
    have ih := scanAlbum_frame favs sa rest
    by_cases hc : check_album_similarity sa c = true
    · by_cases hmem : c.id ∈ favs
      · rw [scanAlbumCandidates, if_pos hc, if_pos hmem]
        exact ⟨fun _ hm => hm, fun _ hm => Or.inl hm,
          fun m hm => absurd hm (List.not_mem_nil m)⟩
      · rw [scanAlbumCandidates, if_pos hc, if_neg hmem]
        refine ⟨fun m hm => List.mem_cons_of_mem _ hm, ?_, ?_⟩
        · intro m hm
          rcases List.mem_cons.mp hm with h | h
          · exact Or.inr (by simp [h])
          · exact Or.inl h
        · intro m hm
          have h : m = c.id := by simpa using hm
          exact ⟨c, List.mem_cons_self c rest, hc, h⟩
    · rw [scanAlbumCandidates, if_neg hc]
      refine ⟨ih.1, ih.2.1, ?_⟩
      intro m hm
      rcases ih.2.2 m hm with ⟨d, hdmem, hsim, heq⟩
      exact ⟨d, List.mem_cons_of_mem c hdmem, hsim, heq⟩

/-- Helper: the same frame facts for one artist candidate scan. -/
lemma scanArtist_frame (favs : List Nat) (name : String) :
    ∀ cands : List TidalArtist,
      (∀ m ∈ favs, m ∈ (scanArtistCandidates favs name cands).favs) ∧
      (∀ m ∈ (scanArtistCandidates favs name cands).favs,
        m ∈ favs ∨ m ∈ (scanArtistCandidates favs name cands).adds) ∧
      (∀ m ∈ (scanArtistCandidates favs name cands).adds,
        ∃ c ∈ cands, namesEquiv c.name name = true ∧ m = c.id)
  | [] =>
    ⟨fun _ hm => hm, fun _ hm => Or.inl hm,
     fun m hm => absurd hm (List.not_mem_nil m)⟩
  | c :: rest => by
    have ih := scanArtist_frame favs name rest
    by_cases hc : namesEquiv c.name name = true
    · by_cases hmem : c.id ∈ favs
      · rw [scanArtistCandidates, if_pos hc, if_pos hmem]
        exact ⟨fun _ hm => hm, fun _ hm => Or.inl hm,
          fun m hm => absurd hm (List.not_mem_nil m)⟩
      · rw [scanArtistCandidates, if_pos hc, if_neg hmem]
        refine ⟨fun m hm => List.mem_cons_of_mem _ hm, ?_, ?_⟩
        · intro m hm
          rcases List.mem_cons.mp hm with h | h
          · exact Or.inr (by simp [h])
          · exact Or.inl h
        · intro m hm
          have h : m = c.id := by simpa using hm
          exact ⟨c, List.mem_cons_self c rest, hc, h⟩
    · rw [scanArtistCandidates, if_neg hc]
      refine ⟨ih.1, ih.2.1, ?_⟩
      intro m hm
      rcases ih.2.2 m hm with ⟨d, hdmem, hsim, heq⟩
      exact ⟨d, List.mem_cons_of_mem c hdmem, hsim, heq⟩

/-- Helper: the album sync pass never drops a favorite, only grows the
favorite set by its own adds, and each add comes from an accepted search
candidate of some source album. -/
lemma sync_albums_frame (search : String → List TidalAlbum) :
    ∀ (albums : List SpotifyAlbum) (favs : List Nat),
      (∀ m ∈ favs, m ∈ (sync_albums_from_backup search favs albums).favs) ∧
      (∀ m ∈ (sync_albums_from_backup search favs albums).favs,
        m ∈ favs ∨ m ∈ (sync_albums_from_backup search favs albums).adds) ∧
      (∀ m ∈ (sync_albums_from_backup search favs albums).adds,
        ∃ a ∈ albums, ∃ c ∈ search (albumQuery a),
          check_album_similarity a c = true ∧ m = c.id)
  | [], favs =>
    ⟨fun _ hm => hm, fun _ hm => Or.inl hm,
     fun m hm => absurd hm (List.not_mem_nil m)⟩
  | a :: rest, favs => by
    have hscan := scanAlbum_frame favs a (search (albumQuery a))
    have ih := sync_albums_frame search rest
      (scanAlbumCandidates favs a (search (albumQuery a))).favs
    have hunf : sync_albums_from_backup search favs (a :: rest) =
        ⟨(scanAlbumCandidates favs a (search (albumQuery a))).adds ++
            (sync_albums_from_backup search
              (scanAlbumCandidates favs a (search (albumQuery a))).favs
              rest).adds,
          (sync_albums_from_backup search
            (scanAlbumCandidates favs a (search (albumQuery a))).favs
            rest).favs,
          (if (scanAlbumCandidates favs a (search (albumQuery a))).matched
            then [] else [albumLabel a]) ++
            (sync_albums_from_backup search
              (scanAlbumCandidates favs a (search (albumQuery a))).favs
              rest).notFound⟩ := rfl
    rw [hunf]
    refine ⟨?_, ?_, ?_⟩
    · intro m hm
      exact ih.1 m (hscan.1 m hm)
    · intro m hm
      rcases ih.2.1 m hm with h | h
      · rcases hscan.2.1 m h with h2 | h2
        · exact Or.inl h2
        · exact Or.inr (List.mem_append.mpr (Or.inl h2))
      · exact Or.inr (List.mem_append.mpr (Or.inr h))
    · intro m hm
      rcases List.mem_append.mp hm with h | h
      · rcases hscan.2.2 m h with ⟨c, hcmem, hsim, heq⟩
        exact ⟨a, List.mem_cons_self a rest, c, hcmem, hsim, heq⟩
      · rcases ih.2.2 m h with ⟨b, hbmem, c, hcmem, hsim, heq⟩
        exact ⟨b, List.mem_cons_of_mem a hbmem, c, hcmem, hsim, heq⟩

/-- Helper: the same pass-level frame facts for the artist sync. -/
lemma sync_artists_frame (search : String → List TidalArtist) :
    ∀ (artists : List SpotifyArtist) (favs : List Nat),
      (∀ m ∈ favs, m ∈ (sync_artists_from_backup search favs artists).favs) ∧
      (∀ m ∈ (sync_artists_from_backup search favs artists).favs,
        m ∈ favs ∨ m ∈ (sync_artists_from_backup search favs artists).adds) ∧
      (∀ m ∈ (sync_artists_from_backup search favs artists).adds,
        ∃ a ∈ artists, ∃ c ∈ search (simple a.name),
          namesEquiv c.name a.name = true ∧ m = c.id)
  | [], favs =>
    ⟨fun _ hm => hm, fun _ hm => Or.inl hm,
     fun m hm => absurd hm (List.not_mem_nil m)⟩
  | a :: rest, favs => by
    have hscan := scanArtist_frame favs a.name (search (simple a.name))
    have ih := sync_artists_frame search rest
      (scanArtistCandidates favs a.name (search (simple a.name))).favs
    have hunf : sync_artists_from_backup search favs (a :: rest) =
        ⟨(scanArtistCandidates favs a.name (search (simple a.name))).adds ++
            (sync_artists_from_backup search
              (scanArtistCandidates favs a.name (search (simple a.name))).favs
              rest).adds,
          (sync_artists_from_backup search
            (scanArtistCandidates favs a.name (search (simple a.name))).favs
            rest).favs,
          (if (scanArtistCandidates favs a.name (search (simple a.name))).matched
            then [] else [a.name]) ++
            (sync_artists_from_backup search
              (scanArtistCandidates favs a.name (search (simple a.name))).favs
              rest).notFound⟩ := rfl
    rw [hunf]
    refine ⟨?_, ?_, ?_⟩
    · intro m hm
      exact ih.1 m (hscan.1 m hm)
    · intro m hm
      rcases ih.2.1 m hm with h | h
      · rcases hscan.2.1 m h with h2 | h2
        · exact Or.inl h2
        · exact Or.inr (List.mem_append.mpr (Or.inl h2))
      · exact Or.inr (List.mem_append.mpr (Or.inr h))
    · intro m hm
      rcases List.mem_append.mp hm with h | h
      · rcases hscan.2.2 m h with ⟨c, hcmem, hsim, heq⟩
        exact ⟨a, List.mem_cons_self a rest, c, hcmem, hsim, heq⟩
      · rcases ih.2.2 m h with ⟨b, hbmem, c, hcmem, hsim, heq⟩
        exact ⟨b, List.mem_cons_of_mem a hbmem, c, hcmem, hsim, heq⟩

/-- C7: the unordered imports (favorites, albums, artists) are strictly
additive.  The embedded traces contain only the add operations the code
issues (`add_favorite_track` / `add_album` / `add_artist`; no remove or
delete call exists in these functions); every destination entry present
before a pass is still present after it, and every added entry comes
from the resolved source collection: a cache-resolved favorite id, or
the id of a search candidate accepted by the kind-specific equivalence
for some source album or artist. -/
theorem c7_unordered_sync_strictly_additive
    (cache : String → Option Nat) (existingFav : List Nat)
    (tracks : List SpotifyTrack)
    (searchAl : String → List TidalAlbum) (favsAl : List Nat)
    (albums : List SpotifyAlbum)
    (searchAr : String → List TidalArtist) (favsAr : List Nat)
    (artists : List SpotifyArtist) :
    ((∀ m ∈ existingFav,
        m ∈ existingFav ++ sync_favorites_from_backup cache existingFav tracks) ∧
     (∀ m ∈ sync_favorites_from_backup cache existingFav tracks,
        m ∈ resolvedFavoriteIds cache tracks ∧ m ∉ existingFav)) ∧
    ((∀ m ∈ favsAl, m ∈ (sync_albums_from_backup searchAl favsAl albums).favs) ∧
     (∀ m ∈ (sync_albums_from_backup searchAl favsAl albums).favs,
        m ∈ favsAl ∨ ∃ a ∈ albums, ∃ c ∈ searchAl (albumQuery a),
          check_album_similarity a c = true ∧ m = c.id)) ∧
    ((∀ m ∈ favsAr, m ∈ (sync_artists_from_backup searchAr favsAr artists).favs) ∧
     (∀ m ∈ (sync_artists_from_backup searchAr favsAr artists).favs,
        m ∈ favsAr ∨ ∃ a ∈ artists, ∃ c ∈ searchAr (simple a.name),
          namesEquiv c.name a.name = true ∧ m = c.id)) := by
  refine ⟨⟨?_, ?_⟩, ⟨(sync_albums_frame searchAl albums favsAl).1, ?_⟩,
    ⟨(sync_artists_frame searchAr artists favsAr).1, ?_⟩⟩
  · intro m hm
    exact List.mem_append.mpr (Or.inl hm)
  · intro m hm
    rw [sync_favorites_eq_filter cache existingFav tracks] at hm
    refine ⟨List.mem_of_mem_filter hm, ?_⟩
    have := List.of_mem_filter hm
    simpa using this
  · intro m hm
    rcases (sync_albums_frame searchAl albums favsAl).2.1 m hm with h | h
    · exact Or.inl h
    · exact Or.inr ((sync_albums_frame searchAl albums favsAl).2.2 m h)
  · intro m hm
    rcases (sync_artists_frame searchAr artists favsAr).2.1 m hm with h | h
    · exact Or.inl h
    · exact Or.inr ((sync_artists_frame searchAr artists favsAr).2.2 m h)

/-- Witness for C7 at concrete inputs: an existing favorite artist id 4
survives an artist sync pass over an empty source list. -/
theorem c7_unordered_sync_strictly_additive_witness :
    (4 : Nat) ∈ (sync_artists_from_backup (fun _ => []) [4] []).favs :=
  (c7_unordered_sync_strictly_additive (fun _ => none) [] []
    (fun _ => []) [] [] (fun _ => []) [4] []).2.2.1 4 (by decide)

/-- The destination-side environment consulted by an import run: the
existing Tidal playlists by name (with their ordered track ids), the
track match cache oracle, the existing favorite track ids, the existing
favorite album and artist id sets, and the album/artist search
endpoints. -/
structure ImportEnv where
  tidalPlaylists : String → Option (List Nat)
  cache : String → Option Nat
  favOld : List Nat
  albumFavs : List Nat
  artistFavs : List Nat
  albumSearch : String → List TidalAlbum
  artistSearch : String → List TidalArtist

/-- The sync_favorites / sync_albums / sync_artists keyword arguments of
`import_from_backup`. -/
structure ImportFlags where
  favorites : Bool
  albums : Bool
  artists : Bool

/-- Python truthiness of an optional list value: present and non-empty. -/
def truthyList {α : Type} : Option (List α) → Bool
  | some (_ :: _) => true
  | _ => false

/-- Every destination mutation of one import run: the per-playlist
operation traces (in playlist order), the favorite-track add calls, and
the album and artist sync outcomes. -/
structure ImportTrace where
  playlistOps : List (String × List PlaylistOp)
  favAdds : List Nat
  albumSync : UnorderedSyncState
  artistSync : UnorderedSyncState

/-- `import_from_backup` from backup.py (lines 438-499): the backup is
loaded and validated first (line 458); a validation failure propagates
before any destination operation.  On success each playlist is synced
against the existing Tidal playlist of the same name, then favorites,
albums and artists are synced when their flag is set and the
corresponding field is truthy (present and non-empty). -/
def import_from_backup (env : ImportEnv) (flags : ImportFlags)
    (raw : RawBackup) : Except LoadError ImportTrace :=
  match load_backup raw with
  | Except.error e => Except.error e
  | Except.ok d =>
    Except.ok
      { playlistOps := (d.playlists.getD []).map
          (fun pd => (pd.name,
            sync_playlist_from_backup env.cache pd (env.tidalPlaylists pd.name)))
      , favAdds :=
          if flags.favorites && truthyList d.favorites then
            sync_favorites_from_backup env.cache env.favOld (d.favorites.getD [])
          else []
      , albumSync :=
          if flags.albums && truthyList d.albums then
            sync_albums_from_backup env.albumSearch env.albumFavs
              (d.albums.getD [])
          else ⟨[], env.albumFavs, []⟩
      , artistSync :=
          if flags.artists && truthyList d.artists then
            sync_artists_from_backup env.artistSearch env.artistFavs
              (d.artists.getD [])
          else ⟨[], env.artistFavs, []⟩ }

/-- C6: when loading the backup fails (MissingVersion, UnsupportedVersion
or MissingPlaylists), import_from_backup propagates the error and its
result carries no mutation trace at all: the validation error surfaces
before any create, clear, append or add operation. -/
theorem c6_invalid_snapshot_no_mutation (env : ImportEnv)
    (flags : ImportFlags) (raw : RawBackup) (e : LoadError)
    (h : load_backup raw = Except.error e) :
    import_from_backup env flags raw = Except.error e := by
  simp [import_from_backup, h]

/-- Witness for C6: importing a backup without a version field fails with
MissingVersion and produces no trace. -/
theorem c6_invalid_snapshot_no_mutation_witness :
    import_from_backup
      ⟨fun _ => none, fun _ => none, [], [], [], fun _ => [], fun _ => []⟩
      ⟨true, true, true⟩
      ⟨none, none, none, some [], none, none, none⟩ =
      Except.error LoadError.MissingVersion :=
  c6_invalid_snapshot_no_mutation _ _ _ LoadError.MissingVersion rfl

/-- Counterexample for C8 as stated: a valid version-1 snapshot without
albums and artists fields loads successfully, but the loaded result keeps
those fields ABSENT rather than defaulting them to empty collections (the
repository's own test asserts `result.get('albums') is None`); the
defaulting to empty happens only at the import call sites. -/
theorem c8_counterexample :
    load_backup ⟨some 1, some "t", some "u", some [], some [], none, none⟩ =
      Except.ok ⟨some 1, some "t", some "u", some [], some [], none, none⟩ ∧
    (⟨some 1, some "t", some "u", some [], some [], none, none⟩ :
      RawBackup).albums ≠ some [] ∧
    (⟨some 1, some "t", some "u", some [], some [], none, none⟩ :
      RawBackup).artists ≠ some [] :=
  ⟨rfl, by decide, by decide⟩

/-- C8 amended: for a valid snapshot with absent albums and artists
fields, reading succeeds with the fields still absent, and the import
treats them exactly as empty collections: the whole import trace equals
the trace for the same snapshot with explicitly empty albums and artists
(in particular, no album or artist mutation is issued). -/
theorem c8_absent_fields_imported_as_empty (env : ImportEnv)
    (flags : ImportFlags) (raw : RawBackup) (v : Int)
    (hv : raw.version = some v) (hle : v ≤ BACKUP_VERSION)
    (hp : raw.playlists ≠ none)
    (ha : raw.albums = none) (hr : raw.artists = none) :
    load_backup raw = Except.ok raw ∧
    import_from_backup env flags raw =
      import_from_backup env flags
        { raw with albums := some [], artists := some [] } := by
  have h1 : load_backup raw = Except.ok raw :=
    load_backup_ok_of_valid raw v hv hle hp
  have h2 : load_backup { raw with albums := some [], artists := some [] } =
      Except.ok { raw with albums := some [], artists := some [] } :=
    load_backup_ok_of_valid _ v (by simpa using hv) hle (by simpa using hp)
  refine ⟨h1, ?_⟩
  simp only [import_from_backup, h1, h2]
  simp [truthyList, ha, hr]

/-- Witness for the amended C8 at a concrete valid version-1 snapshot
without albums/artists fields. -/
theorem c8_absent_fields_imported_as_empty_witness :
    load_backup ⟨some 1, some "e", some "w", some [], some [], none, none⟩ =
      Except.ok ⟨some 1, some "e", some "w", some [], some [], none, none⟩ ∧
    import_from_backup
      ⟨fun _ => none, fun _ => none, [], [], [], fun _ => [], fun _ => []⟩
      ⟨true, true, true⟩
      ⟨some 1, some "e", some "w", some [], some [], none, none⟩ =
    import_from_backup
      ⟨fun _ => none, fun _ => none, [], [], [], fun _ => [], fun _ => []⟩
      ⟨true, true, true⟩
      ⟨some 1, some "e", some "w", some [], some [], some [], some []⟩ :=
  c8_absent_fields_imported_as_empty _ _ _ 1 rfl (by decide) (by decide) rfl rfl

end SpotifyToTidal
